import Mathlib

/-!
Shallow embedding of the release engine in `src/tito/release.py` (the
`Releaser` class hierarchy: file sync planning, commit gates, CVS tagging,
and Koji build submission), together with proofs of the spec's testable
properties about it.

Strings are modelled with executable character-level helpers (Python's
`os.path.basename`, `str.strip`, `str.split(" ")`, `str.lower`,
`str.endswith`, substring containment) so that every definition reduces in
the kernel.  The filesystem state of a destination directory is modelled as
the list of base filenames it contains; external command invocations are
modelled by their observable parameters (exit status, captured output) and
by explicit action traces.
-/

/-- Python `os.path.basename`: the part of a path after the last slash. -/
def basename (p : String) : String :=
  String.mk ((p.data.reverse.takeWhile (fun c => c != '/')).reverse)

/-- The whitespace characters stripped by Python's `str.strip()`. -/
def py_space (c : Char) : Bool :=
  c == ' ' || c == '\t' || c == '\n' || c == '\r' || c == '\x0b' || c == '\x0c'

/-- Python `str.strip()`: drop leading and trailing whitespace. -/
def py_strip (s : String) : String :=
  String.mk (((s.data.dropWhile py_space).reverse.dropWhile py_space).reverse)

/-- Helper for `split_space`: accumulate the current field (reversed). -/
def split_space_aux : List Char → List Char → List String
  | [], acc => [String.mk acc.reverse]
  | c :: rest, acc =>
      if c == ' ' then String.mk acc.reverse :: split_space_aux rest []
      else split_space_aux rest (c :: acc)

/-- Python `str.split(" ")`: split at every single space character. -/
def split_space (s : String) : List String :=
  split_space_aux s.data []

/-- Python `str.lower()` (ASCII case fold, as used for y/n answers). -/
def lower (s : String) : String :=
  String.mk (s.data.map Char.toLower)

/-- Python `str.endswith`. -/
def endswith (s suffix : String) : Bool :=
  suffix.data.isSuffixOf s.data

/-- Contiguous-sublist test on character lists (`needle in haystack`). -/
def list_is_infix : List Char → List Char → Bool
  | needle, [] => needle.isEmpty
  | needle, c :: t => needle.isPrefixOf (c :: t) || list_is_infix needle t

/-- Python `needle in haystack` on strings. -/
def contains_substr (haystack needle : String) : Bool :=
  list_is_infix needle.data haystack.data

/-- Constant `PROTECTED_BUILD_SYS_FILES`, release.py line 35: build-system
files that must never be overwritten or deleted when syncing. -/
def PROTECTED_BUILD_SYS_FILES : List String :=
  ["branch", "CVS", ".cvsignore", "Makefile", "sources", ".git", ".gitignore"]

/-- The copy loop of `Releaser._sync_files` (release.py lines 204-216).
Input: the remaining `files_to_copy` (full paths) and the current listing of
the destination directory.  Output: `(new_files, copied_files, dest')` where
`dest'` is the listing after all `cp` commands ran.  A path whose basename is
absent from the destination is recorded in `new_files` and the `cp` creates
it; a path whose basename is already present is copied over in place — the
source prints "copying:" for it but appends it to no list, so
`copied_files` stays empty exactly as in the source. -/
def copy_loop : List String → List String → List String × List String × List String
  | [], dest => ([], [], dest)
  | copy_me :: rest, dest =>
      let b := basename copy_me
      if b ∈ dest then
        copy_loop rest dest
      else
        let (new_files, copied_files, dest') := copy_loop rest (dest ++ [b])
        (b :: new_files, copied_files, dest')

/-- Model of `Releaser._sync_files` (release.py lines 185-226).  Returns the triple
`(new_files, copied_files, old_files)` together with the destination
directory listing after the copies (the `os.listdir(dest_dir)` that the
obsolete-file loop at lines 220-224 observes). -/
def sync_files (files_to_copy : List String) (dest_dir : List String) :
    (List String × List String × List String) × List String :=
  let filenames_to_copy := files_to_copy.map basename
  let (new_files, copied_files, dest') := copy_loop files_to_copy dest_dir
  let old_files := dest'.filter (fun f =>
    decide (f ∉ PROTECTED_BUILD_SYS_FILES ∧ f ∉ filenames_to_copy))
  ((new_files, copied_files, old_files), dest')

/-- The caller of `_sync_files` deletes each obsolete file via the backing
system's removal command (`git rm` / `cvs rm -Rf`), removing it from the
destination directory listing. -/
def remove_old (dest old_files : List String) : List String :=
  dest.filter (fun f => decide (f ∉ old_files))

/-- One entry of `os.listdir(self.builder.rpmbuild_gitcopy)`. -/
structure DirEntry where
  name : String
  is_dir : Bool
deriving DecidableEq

/-- The per-entry selection test of `Releaser._list_files_to_copy`
(release.py lines 152-175): skip directories, protected files and spec
files, then keep the entry iff its name ends with one of the configured
copy extensions. -/
def copy_entry_selected (cvs_copy_extensions : List String) (e : DirEntry) : Bool :=
  !e.is_dir &&
    !(decide (e.name ∈ PROTECTED_BUILD_SYS_FILES)) &&
    !(endswith e.name ".spec") &&
    cvs_copy_extensions.any (fun ext => endswith e.name ext)

/-- Model of `Releaser._list_files_to_copy` (release.py lines 136-177): the explicit
spec-file path followed by the full paths of the selected directory
entries. -/
def list_files_to_copy (spec_file gitcopy_dir : String) (entries : List DirEntry)
    (cvs_copy_extensions : List String) : List String :=
  spec_file ::
    (entries.filter (copy_entry_selected cvs_copy_extensions)).map
      (fun e => gitcopy_dir ++ "/" ++ e.name)

example : sync_files ["/git/mypkg.spec"] ["mypkg.spec"] = (([], [], []), ["mypkg.spec"]) := by
  decide

example : sync_files ["/src/pkg.spec", "/git/pkg.patch"] ["CVS"] =
    ((["pkg.spec", "pkg.patch"], [], []), ["CVS", "pkg.spec", "pkg.patch"]) := by
  decide

example : sync_files ["/src/pkg.spec", "/git/pkg.patch"] ["CVS", "old.patch"] =
    ((["pkg.spec", "pkg.patch"], [], ["old.patch"]),
     ["CVS", "old.patch", "pkg.spec", "pkg.patch"]) := by
  decide

/-- Affirmative answers accepted by the confirmation prompts (release.py
lines 356, 625, 656): the lower-cased answer must be one of these. -/
def affirmative (answer : String) : Bool :=
  decide (lower answer ∈ (["y", "yes", "ok", "sure"] : List String))

/-- Observable actions of the commit gates and of dry-run handling. -/
inductive GitAction where
  | review_diff
  | prompt_commit
  | abort_exit
  | cmd (c : String)
  | dry_warn (c : String)
deriving DecidableEq

/-- The commit command assembled at release.py line 362. -/
def fedpkg_commit_cmd (project_name build_version : String) : String :=
  "fedpkg commit -m \"Update " ++ project_name ++ " to " ++ build_version ++ "\""

/-- Model of `FedoraGitReleaser._git_user_confirm_commit` (release.py lines
335-376, up to the `_build` call): the gate always runs and shows
`git diff --cached` (`review_diff`).  If the stripped diff is empty the
commit is skipped with no prompt; otherwise the operator is prompted and a
non-affirmative answer cleans up and exits (`abort_exit`).  On an
affirmative answer the `fedpkg commit` command is run — with no dry-run
check — and finally `fedpkg push` is run, or replaced by a dry-run warning
when `dry_run` is set. -/
def git_user_confirm_commit (dry_run : Bool)
    (project_name build_version diff_output answer : String) : List GitAction :=
  let push_part :=
    if dry_run then [GitAction.dry_warn "fedpkg push"]
    else [GitAction.cmd "fedpkg push"]
  if py_strip diff_output == "" then
    GitAction.review_diff :: push_part
  else if !(affirmative answer) then
    [GitAction.review_diff, GitAction.prompt_commit, GitAction.abort_exit]
  else
    [GitAction.review_diff, GitAction.prompt_commit,
      GitAction.cmd (fedpkg_commit_cmd project_name build_version)] ++ push_part

/-- Model of `CvsReleaser._cvs_user_confirm_commit` (release.py lines
609-630): the diff from `cvs diff -u` is printed and the operator is
prompted unconditionally — there is no empty-diff short-circuit.  A
non-affirmative answer cleans up and exits. -/
def cvs_user_confirm_commit (diff_output answer : String) : List GitAction :=
  if !(affirmative answer) then
    [GitAction.review_diff, GitAction.prompt_commit, GitAction.abort_exit]
  else
    [GitAction.review_diff, GitAction.prompt_commit]

/-- Modelled from the spec: `run_command` is defined in `tito.common`, which
is not under src/.  Per the spec's error-handling design ("any fatal error
during a release run terminates the process with a non-zero status"; a
failing external command "is fatal" and "aborts the entire release"),
`run_command` raises a fatal error exactly when the command it runs exits
with a non-zero status. -/
def run_command_raises (status : Nat) : Bool :=
  status > 0

/-- Observable events of `CvsReleaser._cvs_user_confirm_commit_msg`. -/
inductive MsgEvent where
  | mkstemp (name : String)
  | write_msg
  | open_editor (editor : String)
  | dry_warn_commit
  | cvs_commit
  | unlink (name : String)
deriving DecidableEq

/-- Model of `CvsReleaser._cvs_user_confirm_commit_msg` (release.py lines
632-672).  A scratch file `name` is created and the synthesized message
written to it; if the operator answers affirmatively an editor (the EDITOR
environment variable, defaulting to "vi") is opened on it.  Under dry-run
the commit command is replaced by a warning; otherwise `cvs commit -F name`
runs via `run_command`, and only after it returns is the scratch file
unlinked.  The second component is `true` when the function returns
normally and `false` when `run_command` raised (the unlink at line 672 is
then never reached). -/
def cvs_user_confirm_commit_msg (dry_run : Bool) (edit_answer : String)
    (editor_env : Option String) (commit_status : Nat) (name : String) :
    List MsgEvent × Bool :=
  let editor := editor_env.getD "vi"
  let pre := [MsgEvent.mkstemp name, MsgEvent.write_msg] ++
    (if affirmative edit_answer then [MsgEvent.open_editor editor] else [])
  if dry_run then
    (pre ++ [MsgEvent.dry_warn_commit, MsgEvent.unlink name], true)
  else if run_command_raises commit_status then
    (pre ++ [MsgEvent.cvs_commit], false)
  else
    (pre ++ [MsgEvent.cvs_commit, MsgEvent.unlink name], true)

/-- The marker phrase tested at release.py line 405. -/
def already_built_marker : String :=
  "already been built"

/-- Whether a step returns control to its caller or terminates the process
via `sys.exit(1)`. -/
inductive BuildOutcome where
  | continued
  | fatal_exit
deriving DecidableEq

/-- Model of `FedoraGitReleaser._build` (release.py lines 394-411), applied
to the observed exit status and captured output of `fedpkg build --nowait`.
Dry-run only prints a warning.  A non-zero status whose output contains the
already-built marker is treated as success; any other non-zero status
writes an error and exits the process. -/
def fedora_build (dry_run : Bool) (status : Nat) (output : String) : BuildOutcome :=
  if dry_run then BuildOutcome.continued
  else if status > 0 then
    if contains_substr output already_built_marker then BuildOutcome.continued
    else BuildOutcome.fatal_exit
  else BuildOutcome.continued

/-- The build submissions of `FedoraGitReleaser._git_user_confirm_commit`
(release.py lines 377-392): one `_build` per branch, in order, where each
branch's `fedpkg build` invocation is summarized by its (status, output)
pair.  Returns how many build submissions were attempted and whether the
run completed (a `fatal_exit` stops the loop, so later branches are never
attempted). -/
def fedora_branch_builds : Bool → List (Nat × String) → Nat × Bool
  | _, [] => (0, true)
  | dry_run, (status, output) :: rest =>
      match fedora_build dry_run status output with
      | BuildOutcome.continued =>
          let (n, ok) := fedora_branch_builds dry_run rest
          (n + 1, ok)
      | BuildOutcome.fatal_exit => (1, false)

/-- Model of `KojiReleaser._submit_build` (release.py lines 812-822):
dry-run prints a warning; otherwise the koji command runs via
`run_command`, which is fatal on any non-zero exit status — the captured
output is never inspected for the already-built marker. -/
def koji_submit_build (dry_run : Bool) (status : Nat) (output : String) : BuildOutcome :=
  if dry_run then BuildOutcome.continued
  else if run_command_raises status then BuildOutcome.fatal_exit
  else BuildOutcome.continued

/-- The whitelist/blacklist options a koji build tag declares in
tito.props (release.py lines 764, 787, 793), as raw option strings. -/
structure KojiTagConfig where
  whitelist : Option String
  blacklist : Option String
deriving DecidableEq

/-- Model of `KojiReleaser.__is_whitelisted` (release.py lines 785-789):
the tag declares a whitelist and the project name appears in its
stripped, space-split word list. -/
def is_whitelisted (cfg : KojiTagConfig) (project_name : String) : Bool :=
  match cfg.whitelist with
  | none => false
  | some w => decide (project_name ∈ split_space (py_strip w))

/-- Model of `KojiReleaser.__is_blacklisted` (release.py lines 791-795). -/
def is_blacklisted (cfg : KojiTagConfig) (project_name : String) : Bool :=
  match cfg.blacklist with
  | none => false
  | some b => decide (project_name ∈ split_space (py_strip b))

/-- The per-tag policy gate of `KojiReleaser._koji_release` (release.py
lines 764-776): when a whitelist option is declared, submission happens iff
the project is whitelisted (a blacklist is never consulted); otherwise a
declared blacklist containing the project skips the submission. -/
def koji_tag_submitted (cfg : KojiTagConfig) (project_name : String) : Bool :=
  match cfg.whitelist with
  | some _ =>
      if !(is_whitelisted cfg project_name) then false
      else true
  | none =>
      if is_blacklisted cfg project_name then false
      else true

/-- The koji-related global configuration read by `KojiReleaser`: whether
tito.props has a "koji" section, and the value of its `autobuild_tags`
option when present. -/
structure KojiConfig where
  koji_section : Bool
  autobuild_tags : Option String

/-- Model of `KojiReleaser._can_build_in_koji` (release.py lines 725-739). -/
def can_build_in_koji (cfg : KojiConfig) : Bool :=
  if !cfg.koji_section then false
  else if cfg.autobuild_tags.isNone then false
  else true

/-- The tag loop of `KojiReleaser._koji_release` (release.py lines
759-783): a tag is skipped when an `only_tags` filter is non-empty and does
not contain it, or when the whitelist/blacklist policy rejects it; the
surviving tags each get an srpm built and submitted. -/
def koji_release_tags (tag_config : String → KojiTagConfig) (project_name : String)
    (only_tags : List String) (koji_tags : List String) : List String :=
  koji_tags.filter (fun t =>
    (decide (only_tags = []) || decide (t ∈ only_tags)) &&
      koji_tag_submitted (tag_config t) project_name)

/-- Model of `KojiReleaser.release` plus `_koji_release` (release.py lines
719-783): when `_can_build_in_koji` fails the release returns with no
submissions; otherwise `autobuild_tags` is stripped and space-split and the
tag loop runs.  Returns the list of tags actually submitted. -/
def koji_release (cfg : KojiConfig) (tag_config : String → KojiTagConfig)
    (project_name : String) (only_tags : List String) : List String :=
  if can_build_in_koji cfg then
    koji_release_tags tag_config project_name only_tags
      (split_space (py_strip (cfg.autobuild_tags.getD "")))
  else []

/-- The per-branch loop of `CvsReleaser._cvs_make_tag` (release.py lines
681-690), applied to the exit statuses of `make tag` in each branch
directory: a status above 1 runs `cleanup` and exits the process with
status 1, stopping the loop; a status of 0 or 1 continues to the next
branch.  Returns (branches attempted, whether cleanup ran, exit code). -/
def cvs_tag_loop : List Nat → Nat × Bool × Option Nat
  | [] => (0, false, none)
  | status :: rest =>
      if status > 1 then (1, true, some 1)
      else
        let (n, cleanup_ran, exit_code) := cvs_tag_loop rest
        (n + 1, cleanup_ran, exit_code)

/-- Model of `CvsReleaser._cvs_make_tag` (release.py lines 674-690):
dry-run prints a warning and tags nothing; otherwise the per-branch tag
loop runs. -/
def cvs_make_tag (dry_run : Bool) (branch_statuses : List Nat) : Nat × Bool × Option Nat :=
  if dry_run then (0, false, none)
  else cvs_tag_loop branch_statuses

lemma copy_loop_copied_nil (files : List String) :
    ∀ dest : List String, (copy_loop files dest).2.1 = [] := by
  induction files with
  | nil => intro dest; rfl
  | cons c rest ih =>
      intro dest
      simp only [copy_loop]
      split
      · exact ih dest
      · exact ih (dest ++ [basename c])

lemma copy_loop_mem_dest (files : List String) :
    ∀ (dest : List String) (b : String), b ∈ dest → b ∈ (copy_loop files dest).2.2 := by
  induction files with
  | nil => intro dest b h; exact h
  | cons c rest ih =>
      intro dest b h
      simp only [copy_loop]
      split
      · exact ih dest b h
      · exact ih (dest ++ [basename c]) b (List.mem_append_left _ h)

lemma copy_loop_basename_mem (files : List String) :
    ∀ (dest : List String) (c : String), c ∈ files → basename c ∈ (copy_loop files dest).2.2 := by
  induction files with
  | nil => intro dest c h; cases h
  | cons c0 rest ih =>
      intro dest c h
      simp only [copy_loop]
      split
      next hb =>
        rcases List.mem_cons.mp h with rfl | hr
        · exact copy_loop_mem_dest rest dest (basename c) hb
        · exact ih dest c hr
      next hb =>
        rcases List.mem_cons.mp h with rfl | hr
        · exact copy_loop_mem_dest rest _ (basename c)
            (List.mem_append_right _ (List.mem_singleton.mpr rfl))
        · exact ih _ c hr

lemma copy_loop_new_nil (files : List String) :
    ∀ dest : List String, (∀ c ∈ files, basename c ∈ dest) → (copy_loop files dest).1 = [] := by
  induction files with
  | nil => intro dest _; rfl
  | cons c0 rest ih =>
      intro dest h
      simp only [copy_loop]
      split
      next =>
        exact ih dest (fun c hc => h c (List.mem_cons_of_mem _ hc))
      next hb =>
        exact absurd (h c0 (List.mem_cons_self _ _)) hb

lemma mem_old_files {files dest : List String} {f : String}
    (h : f ∈ (sync_files files dest).1.2.2) :
    f ∉ PROTECTED_BUILD_SYS_FILES ∧ f ∉ files.map basename := by
  have h' : f ∈ ((copy_loop files dest).2.2).filter
      (fun g => decide (g ∉ PROTECTED_BUILD_SYS_FILES ∧ g ∉ files.map basename)) := h
  exact of_decide_eq_true (List.mem_filter.mp h').2

lemma mem_remove_old {dest old_files : List String} {b : String}
    (hd : b ∈ dest) (ho : b ∉ old_files) : b ∈ remove_old dest old_files :=
  List.mem_filter.mpr ⟨hd, decide_eq_true ho⟩

/-- C1: the claim asserts that the union of the planner's new and updated
sets equals the set of base filenames of the source file list, but
`_sync_files` never appends to `copied_files` (its own comment at
release.py line 198 says it holds "Base filenames for pre-existing files we
copied over", and the loop prints "copying:" for exactly those files).
Evaluated at a one-file source list whose basename already exists at the
destination, all three result sets are empty, so new ∪ updated = ∅ while
the input filename set is \x7b"mypkg.spec"\x7d. -/
theorem sync_files_updated_set_never_populated :
    sync_files ["/git/mypkg.spec"] ["mypkg.spec"] = (([], [], []), ["mypkg.spec"]) := by
  decide

/-- C5: a protected filename is never classified obsolete by `_sync_files`,
whatever the source file list and destination contents, and the
extension-selection loop of `_list_files_to_copy` never selects a directory
entry bearing a protected name for copying. -/
theorem protected_files_never_obsolete (files dest : List String) (f : String)
    (h : f ∈ PROTECTED_BUILD_SYS_FILES) :
    f ∉ (sync_files files dest).1.2.2 ∧
      ∀ (exts : List String) (e : DirEntry), e.name = f →
        copy_entry_selected exts e = false := by
  refine ⟨fun hmem => (mem_old_files hmem).1 h, ?_⟩
  intro exts e he
  simp [copy_entry_selected, he, h]

theorem protected_files_never_obsolete_witness :
    "CVS" ∉ (sync_files ["/git/a.patch"] ["CVS", "b.patch"]).1.2.2 :=
  (protected_files_never_obsolete ["/git/a.patch"] ["CVS", "b.patch"] "CVS" (by decide)).1

/-- C7: running `_sync_files` a second time with the same source file list
against the destination state left by a first run (copies applied and the
obsolete files removed by the caller) yields an empty new set, and an
updated set no smaller than the first run's updated set. -/
theorem sync_files_second_run (files dest : List String) :
    (sync_files files
        (remove_old (sync_files files dest).2 (sync_files files dest).1.2.2)).1.1 = [] ∧
      (sync_files files dest).1.2.1.length ≤
        (sync_files files
          (remove_old (sync_files files dest).2 (sync_files files dest).1.2.2)).1.2.1.length := by
  constructor
  · show (copy_loop files
        (remove_old (sync_files files dest).2 (sync_files files dest).1.2.2)).1 = []
    apply copy_loop_new_nil
    intro c hc
    apply mem_remove_old
    · exact copy_loop_basename_mem files dest c hc
    · intro hold
      exact (mem_old_files hold).2 (List.mem_map_of_mem basename hc)
  · show (copy_loop files dest).2.1.length ≤
        (copy_loop files
          (remove_old (sync_files files dest).2 (sync_files files dest).1.2.2)).2.1.length
    rw [copy_loop_copied_nil, copy_loop_copied_nil]

/-- C2 counterexample: the Koji releaser's `_submit_build` runs the koji
command through `run_command`, so a non-zero exit is fatal even when the
captured output contains the already-built marker phrase — the submission
is not treated as success there. -/
theorem koji_submit_ignores_already_built_marker :
    contains_substr "mypkg-1.0-1 has already been built" already_built_marker = true ∧
      koji_submit_build false 1 "mypkg-1.0-1 has already been built" =
        BuildOutcome.fatal_exit := by
  decide

/-- C2 amended: in the git-based releaser a non-zero build exit whose
output contains the already-built marker continues the run, any other
non-zero exit is fatal and stops the branch fan-out immediately (no further
branches are attempted); in the Koji releaser any non-zero exit of the
submission command is fatal regardless of output. -/
theorem build_submission_error_policy (status : Nat) (output : String) :
    (status > 0 → contains_substr output already_built_marker = true →
      fedora_build false status output = BuildOutcome.continued) ∧
    (status > 0 → contains_substr output already_built_marker = false →
      fedora_build false status output = BuildOutcome.fatal_exit) ∧
    (status > 0 → contains_substr output already_built_marker = false →
      ∀ rest : List (Nat × String),
        fedora_branch_builds false ((status, output) :: rest) = (1, false)) ∧
    (status > 0 → koji_submit_build false status output = BuildOutcome.fatal_exit) := by
  refine ⟨?_, ?_, ?_, ?_⟩
  · intro hs hm
    simp [fedora_build, hs, hm]
  · intro hs hm
    simp [fedora_build, hs, hm]
  · intro hs hm rest
    have hf : fedora_build false status output = BuildOutcome.fatal_exit := by
      simp [fedora_build, hs, hm]
    simp [fedora_branch_builds, hf]
  · intro hs
    simp [koji_submit_build, run_command_raises, hs]

theorem build_submission_error_policy_witness :
    fedora_build false 1 "error: mypkg has already been built" = BuildOutcome.continued ∧
      koji_submit_build false 1 "some other error" = BuildOutcome.fatal_exit :=
  ⟨(build_submission_error_policy 1 "error: mypkg has already been built").1
      (by decide) (by decide),
    (build_submission_error_policy 1 "some other error").2.2.2 (by decide)⟩

/-- C3: for a configured koji build tag, a declared whitelist not
containing the project skips the submission whatever the blacklist says; a
blacklist containing the project skips the submission when no whitelist is
declared; and with neither list declared the submission proceeds. -/
theorem koji_tag_policy (cfg : KojiTagConfig) (project_name : String) :
    (∀ w, cfg.whitelist = some w → project_name ∉ split_space (py_strip w) →
      koji_tag_submitted cfg project_name = false) ∧
    (cfg.whitelist = none → ∀ b, cfg.blacklist = some b →
      project_name ∈ split_space (py_strip b) →
      koji_tag_submitted cfg project_name = false) ∧
    (cfg.whitelist = none → cfg.blacklist = none →
      koji_tag_submitted cfg project_name = true) := by
  refine ⟨?_, ?_, ?_⟩
  · intro w hw hmem
    simp [koji_tag_submitted, is_whitelisted, hw, hmem]
  · intro hwn b hb hmem
    simp [koji_tag_submitted, is_blacklisted, hwn, hb, hmem]
  · intro hwn hbn
    simp [koji_tag_submitted, is_blacklisted, hwn, hbn]

theorem koji_tag_policy_witness :
    koji_tag_submitted ⟨some "other", some "mypkg"⟩ "mypkg" = false ∧
      koji_tag_submitted ⟨none, some "mypkg other"⟩ "mypkg" = false ∧
      koji_tag_submitted ⟨none, none⟩ "mypkg" = true :=
  ⟨(koji_tag_policy ⟨some "other", some "mypkg"⟩ "mypkg").1 "other" rfl (by decide),
    (koji_tag_policy ⟨none, some "mypkg other"⟩ "mypkg").2.1 rfl "mypkg other" rfl (by decide),
    (koji_tag_policy ⟨none, none⟩ "mypkg").2.2 rfl rfl⟩

/-- C4 counterexample: the CVS variant's commit gate prompts the operator
even when the diff is empty — it has no empty-diff short-circuit — so the
claim does not hold for every backing-system variant with a commit gate. -/
theorem cvs_commit_gate_prompts_on_empty_diff :
    GitAction.prompt_commit ∈ cvs_user_confirm_commit "" "y" := by
  decide

/-- C4 amended: when the staged diff is empty after stripping whitespace,
the git variant's commit gate proceeds without prompting and without any
commit action (its whole trace is the diff review followed by the push
step); the CVS variant's gate, however, prompts the operator even then. -/
theorem commit_gate_empty_diff (dry_run : Bool) (p v diff answer : String)
    (h : py_strip diff = "") :
    git_user_confirm_commit dry_run p v diff answer =
      GitAction.review_diff ::
        (if dry_run then [GitAction.dry_warn "fedpkg push"]
         else [GitAction.cmd "fedpkg push"]) ∧
    GitAction.prompt_commit ∈ cvs_user_confirm_commit diff answer := by
  constructor
  · simp [git_user_confirm_commit, h]
  · by_cases ha : affirmative answer <;> simp [cvs_user_confirm_commit, ha]

theorem commit_gate_empty_diff_witness :
    git_user_confirm_commit false "mypkg" "1.0-1" " " "y" =
      [GitAction.review_diff, GitAction.cmd "fedpkg push"] ∧
    GitAction.prompt_commit ∈ cvs_user_confirm_commit " " "y" := by
  have h := commit_gate_empty_diff false "mypkg" "1.0-1" " " "y" (by decide)
  simpa using h

/-- C6 counterexample: in dry-run mode the git variant still runs the
`fedpkg commit` command after an affirmative answer on a non-empty diff —
that side-effecting command is not guarded by the dry-run flag, so not
every side-effecting command in a destructive step checks the flag. -/
theorem dry_run_still_runs_git_commit :
    GitAction.cmd (fedpkg_commit_cmd "mypkg" "1.0-1") ∈
      git_user_confirm_commit true "mypkg" "1.0-1" "diff --git a/x b/x" "y" := by
  decide

/-- C6 amended: dry-run never suppresses the diff review; it replaces the
git push, the CVS commit, the CVS tag creation and the build submissions
with no-op warnings, each step checking the flag immediately before the
command — with the exception of the git variant's commit command, which is
not guarded and runs even under dry-run. -/
theorem dry_run_policy (p v diff answer ea output : String) (ed : Option String)
    (st : Nat) (name : String) (sts : List Nat) :
    (∀ dry_run : Bool, GitAction.review_diff ∈ git_user_confirm_commit dry_run p v diff answer) ∧
    (py_strip diff ≠ "" → affirmative answer = true →
      git_user_confirm_commit true p v diff answer =
        [GitAction.review_diff, GitAction.prompt_commit,
          GitAction.cmd (fedpkg_commit_cmd p v), GitAction.dry_warn "fedpkg push"]) ∧
    (MsgEvent.dry_warn_commit ∈ (cvs_user_confirm_commit_msg true ea ed st name).1 ∧
      MsgEvent.cvs_commit ∉ (cvs_user_confirm_commit_msg true ea ed st name).1) ∧
    fedora_build true st output = BuildOutcome.continued ∧
    koji_submit_build true st output = BuildOutcome.continued ∧
    cvs_make_tag true sts = (0, false, none) := by
  refine ⟨?_, ?_, ⟨?_, ?_⟩, ?_, ?_, ?_⟩
  · intro dry_run
    by_cases h1 : py_strip diff == ""
    · simp [git_user_confirm_commit, h1]
    · by_cases h2 : affirmative answer <;>
        simp [git_user_confirm_commit, h1, h2]
  · intro hne ha
    simp [git_user_confirm_commit, hne, ha]
  · by_cases haff : affirmative ea <;> simp [cvs_user_confirm_commit_msg, haff]
  · by_cases haff : affirmative ea <;> simp [cvs_user_confirm_commit_msg, haff]
  · simp [fedora_build]
  · simp [koji_submit_build]
  · simp [cvs_make_tag]

theorem dry_run_policy_witness :
    git_user_confirm_commit true "mypkg" "1.0-1" "some diff" "y" =
      [GitAction.review_diff, GitAction.prompt_commit,
        GitAction.cmd (fedpkg_commit_cmd "mypkg" "1.0-1"), GitAction.dry_warn "fedpkg push"] :=
  (dry_run_policy "mypkg" "1.0-1" "some diff" "y" "n" "" none 0 "/tmp/msg" []).2.1
    (by decide) (by decide)

/-- C8 counterexample: when the `cvs commit` command fails, `run_command`
raises before the `os.unlink` at release.py line 672 is reached, so the
scratch commit-message file is not removed on that exit path. -/
theorem scratch_file_leaked_on_commit_failure :
    (cvs_user_confirm_commit_msg false "n" none 1 "/tmp/msg").2 = false ∧
      MsgEvent.unlink "/tmp/msg" ∉ (cvs_user_confirm_commit_msg false "n" none 1 "/tmp/msg").1 := by
  decide

/-- C8 amended: the scratch commit-message file is removed on every normal
exit path of the commit-message step (dry-run, and a successful commit);
but when the commit command itself fails, the step terminates abnormally
and the scratch file is left behind. -/
theorem scratch_file_removal (dry_run : Bool) (ea : String) (ed : Option String)
    (st : Nat) (name : String) :
    ((cvs_user_confirm_commit_msg dry_run ea ed st name).2 = true →
      MsgEvent.unlink name ∈ (cvs_user_confirm_commit_msg dry_run ea ed st name).1) ∧
    (dry_run = false → st > 0 →
      (cvs_user_confirm_commit_msg dry_run ea ed st name).2 = false ∧
        MsgEvent.unlink name ∉ (cvs_user_confirm_commit_msg dry_run ea ed st name).1) := by
  constructor
  · intro hok
    by_cases hd : dry_run
    · by_cases haff : affirmative ea <;> simp [cvs_user_confirm_commit_msg, hd, haff]
    · by_cases hr : run_command_raises st
      · exfalso
        have : (cvs_user_confirm_commit_msg dry_run ea ed st name).2 = false := by
          by_cases haff : affirmative ea <;>
            simp [cvs_user_confirm_commit_msg, hd, hr, haff]
        rw [hok] at this
        exact absurd this (by decide)
      · by_cases haff : affirmative ea <;>
          simp [cvs_user_confirm_commit_msg, hd, hr, haff]
  · intro hd hst
    have hr : run_command_raises st = true := decide_eq_true hst
    by_cases haff : affirmative ea <;>
      simp [cvs_user_confirm_commit_msg, hd, hr, haff]

theorem scratch_file_removal_witness :
    MsgEvent.unlink "/tmp/msg" ∈ (cvs_user_confirm_commit_msg true "n" none 0 "/tmp/msg").1 :=
  (scratch_file_removal true "n" none 0 "/tmp/msg").1 (by decide)

/-- C9: the CVS per-branch tag loop treats a `make tag` exit status of at
most 1 as a soft failure and continues with the remaining branches, while a
status above 1 runs cleanup and exits the process with status 1, attempting
no further branch. -/
theorem cvs_tag_threshold (status : Nat) (rest : List Nat) :
    (status ≤ 1 → cvs_tag_loop (status :: rest) =
      ((cvs_tag_loop rest).1 + 1, (cvs_tag_loop rest).2.1, (cvs_tag_loop rest).2.2)) ∧
    (status > 1 → cvs_tag_loop (status :: rest) = (1, true, some 1)) := by
  constructor
  · intro h
    have h' : ¬ status > 1 := by omega
    simp [cvs_tag_loop, h']
  · intro h
    simp [cvs_tag_loop, h]

theorem cvs_tag_threshold_witness :
    cvs_tag_loop [1, 0] = (2, false, none) ∧ cvs_tag_loop [2, 0] = (1, true, some 1) := by
  constructor
  · rw [(cvs_tag_threshold 1 [0]).1 (by decide)]
    decide
  · exact (cvs_tag_threshold 2 [0]).2 (by decide)

/-- C10: when tito.props has no "koji" section, or the section declares no
`autobuild_tags` option, the Koji releaser's release operation returns
normally with no build submitted. -/
theorem koji_release_no_config (cfg : KojiConfig) (tag_config : String → KojiTagConfig)
    (project_name : String) (only_tags : List String)
    (h : cfg.koji_section = false ∨ cfg.autobuild_tags = none) :
    koji_release cfg tag_config project_name only_tags = [] := by
  have hc : can_build_in_koji cfg = false := by
    rcases h with h | h <;> simp [can_build_in_koji, h]
  simp [koji_release, hc]

theorem koji_release_no_config_witness :
    koji_release ⟨false, none⟩ (fun _ => ⟨none, none⟩) "mypkg" [] = [] :=
  koji_release_no_config ⟨false, none⟩ (fun _ => ⟨none, none⟩) "mypkg" [] (Or.inl rfl)
